import Mathlib

/-!
Verification of the client-side job-completion core of the intrascribe web
client: the channel-subscription manager and the asynchronous task poller
(`src/web/lib/supabase.ts`), and the retranscription completion state machine
(`src/web/app/page.tsx`).  Each TypeScript routine is embedded as an
executable Lean function; machine behaviour is proved about these embeddings.
-/

namespace Intrascribe

/-! ## Channel subscription manager (`subscriptionManager` in supabase.ts)

A channel handle is identified by the numeric id of the transport
subscription that backs it.  `activeChannels` embeds the
`Map<string, Channel>`; `transportCount` counts how many transport
subscriptions have ever been opened (each successful
`supabase.channel(...).subscribe(...)` call opens exactly one). -/

structure ManagerState where
  activeChannels : String → Option Nat
  nextId : Nat
  transportCount : Nat

/-- `subscriptionManager.hasChannel(channelName)`. -/
def hasChannel (st : ManagerState) (name : String) : Bool :=
  (st.activeChannels name).isSome

/-- `subscriptionManager.createChannel(channelName, userId, callback)`:
if the name is already in the map the existing handle is returned and
nothing else happens; otherwise a transport subscription is opened (the
`transportFails` flag models the `catch` path where channel construction
throws, in which case `null` is returned and nothing is inserted) and the
new handle is stored under the name. -/
def createChannel (st : ManagerState) (name : String) (transportFails : Bool) :
    Option Nat × ManagerState :=
  match st.activeChannels name with
  | some ch => (some ch, st)
  | none =>
    if transportFails then (none, st)
    else
      (some st.nextId,
        { activeChannels := fun n => if n = name then some st.nextId else st.activeChannels n
          nextId := st.nextId + 1
          transportCount := st.transportCount + 1 })

/-- `subscriptionManager.createTranscriptionChannel(channelName, sessionIds, callback)`:
identical map logic to `createChannel` (only the subscribed table and the
payload filter differ, which live inside the transport callback). -/
def createTranscriptionChannel (st : ManagerState) (name : String)
    (transportFails : Bool) : Option Nat × ManagerState :=
  match st.activeChannels name with
  | some ch => (some ch, st)
  | none =>
    if transportFails then (none, st)
    else
      (some st.nextId,
        { activeChannels := fun n => if n = name then some st.nextId else st.activeChannels n
          nextId := st.nextId + 1
          transportCount := st.transportCount + 1 })

/-- `subscriptionManager.removeChannel(channelName)`: when the name is in the
map, `channel.unsubscribe()` is attempted; the map entry is deleted in the
`try` branch and again in the `catch` branch, so deletion happens whether or
not teardown throws (`unsubThrows`). -/
def removeChannel (st : ManagerState) (name : String) (unsubThrows : Bool) :
    ManagerState :=
  match st.activeChannels name with
  | some _ =>
    if unsubThrows then
      { st with activeChannels := fun n => if n = name then none else st.activeChannels n }
    else
      { st with activeChannels := fun n => if n = name then none else st.activeChannels n }
  | none => st

/-! ## Asynchronous task poller (`APIClient.pollV2TaskStatus`) -/

/-- Body of `GET /v2/tasks/{taskId}` once parsed: `{ status, result?, error? }`
(the fields the poller reads). -/
structure TaskStatusResponse where
  status : String
  result : Option String
  error : Option String
deriving DecidableEq

/-- Outcome of one status fetch as seen inside the `try` block: either a
parsed body, or an error thrown during fetch/parse — a non-ok HTTP response
throws `new Error('HTTP ' + status)`, so it is carried here with that
message. -/
inductive AttemptResponse
  | ok (r : TaskStatusResponse)
  | fetchError (msg : String)

/-- Modelled from the spec: the `getTaskStatus` helper lives in
`lib/api-types`, which is not part of the corpus.  Per the spec's
task-status taxonomy, the recognized statuses are `pending`, `processing`,
`completed`, `failed`, `cancelled`; `pending`/`processing` are the
"still in progress" statuses (both wait the base delay and continue). -/
structure TaskStatusFlags where
  isCompleted : Bool
  isFailed : Bool
  isCancelled : Bool
  isPending : Bool

/-- Modelled from the spec: flag computation of `getTaskStatus`. -/
def getTaskStatus (r : TaskStatusResponse) : TaskStatusFlags :=
  { isCompleted := r.status == "completed"
    isFailed := r.status == "failed"
    isCancelled := r.status == "cancelled"
    isPending := r.status == "pending" || r.status == "processing" }

/-- JavaScript truthiness of the optional `result` payload
(`taskStatusResponse.result` is falsy when absent or the empty string). -/
def truthy : Option String → Bool
  | none => false
  | some s => !(s == "")

/-- JavaScript `a || b` for an optional string `a` (an empty string also
falls through to the default). -/
def jsOr (a : Option String) (b : String) : String :=
  match a with
  | none => b
  | some s => if s == "" then b else s

/-- What one iteration of the `try` block does with the fetched response:
return the result, throw (reaching the `catch`), sleep the base delay and
continue, or (unrecognized status) continue with no delay. -/
inductive StepOutcome
  | ret (payload : String)
  | thrown (msg : String)
  | sleepContinue
  | continueNoSleep
deriving DecidableEq

/-- The status dispatch inside the `try` block of `pollV2TaskStatus`. -/
def attemptStep : AttemptResponse → StepOutcome
  | .fetchError msg => .thrown msg
  | .ok r =>
    let st := getTaskStatus r
    if st.isCompleted && truthy r.result then .ret (jsOr r.result "")
    else if st.isFailed then .thrown (jsOr r.error "任务执行失败")
    else if st.isCancelled then .thrown "任务被取消"
    else if st.isPending then .sleepContinue
    else .continueNoSleep

/-- How a call to `poll` can end. -/
inductive PollOutcome
  | success (payload : String)
  | errorOut (msg : String)
  | authFailure (msg : String)
  | pollTimeout (attempts : Nat)
deriving DecidableEq

/-- A finished poll call: its outcome, how many attempts were made, and the
sleeps performed between attempts (in ms, in order). -/
structure PollRun where
  outcome : PollOutcome
  attemptsMade : Nat
  sleeps : List Nat
deriving DecidableEq

/-- `pat.isPrefixOf l || ...` over every suffix: substring test on char
lists, embedding JavaScript `String.prototype.includes`. -/
def hasSub (pat : List Char) : List Char → Bool
  | [] => pat.isPrefixOf []
  | c :: rest => pat.isPrefixOf (c :: rest) || hasSub pat rest

/-- JavaScript `s.includes(pat)`. -/
def strContains (s pat : String) : Bool :=
  hasSub pat.data s.data

/-- What the `catch` block decides for a caught error. -/
inductive CatchOutcome
  | fail (o : PollOutcome)
  | retry (sleepMs : Nat)
deriving DecidableEq

/-- The `catch` block of `pollV2TaskStatus`: a message containing `403` takes
the fast-retry path, cut off by `attempt >= 5` against the overall loop
index; any other error is rethrown once `attempt >= maxAttempts - 3`,
otherwise retried after the base delay.  (For `maxAttempts < 3` the
JavaScript comparison is against a negative number and always true; with
truncated `Nat` subtraction `attempt >= maxAttempts - 3` is likewise always
true there, so the embedding agrees.) -/
def handlePollError (msg : String) (attempt maxAttempts : Nat) : CatchOutcome :=
  if strContains msg "403" then
    if attempt ≥ 5 then .fail (.authFailure ("认证失败，请重新登录: " ++ msg))
    else .retry 1000
  else if attempt ≥ maxAttempts - 3 then .fail (.errorOut msg)
  else .retry 3000

/-- The `for (let attempt = 0; attempt < maxAttempts; attempt++)` loop:
`i` is the current attempt index, `fuel` the remaining iterations
(`i + fuel = maxAttempts` at every call), `tr` the sleeps so far.  Falling
out of the loop throws the timeout error naming `maxAttempts`. -/
def pollGo (env : Nat → AttemptResponse) (maxAttempts : Nat) :
    Nat → Nat → List Nat → PollRun
  | i, 0, tr => ⟨.pollTimeout maxAttempts, i, tr⟩
  | i, fuel + 1, tr =>
    match attemptStep (env i) with
    | .ret p => ⟨.success p, i + 1, tr⟩
    | .sleepContinue => pollGo env maxAttempts (i + 1) fuel (tr ++ [3000])
    | .continueNoSleep => pollGo env maxAttempts (i + 1) fuel tr
    | .thrown msg =>
      match handlePollError msg i maxAttempts with
      | .fail o => ⟨o, i + 1, tr⟩
      | .retry ms => pollGo env maxAttempts (i + 1) fuel (tr ++ [ms])

/-- `APIClient.pollV2TaskStatus(taskId, maxAttempts)`, with the per-attempt
fetch responses supplied by `env`. -/
def pollV2TaskStatus (env : Nat → AttemptResponse) (maxAttempts : Nat) : PollRun :=
  pollGo env maxAttempts 0 maxAttempts []

/-- The declared default of the `maxAttempts` parameter. -/
def defaultMaxAttempts : Nat := 120

/-- A `pending` status body. -/
def pendingBody : TaskStatusResponse := ⟨"pending", none, none⟩

/-- A `failed` status body carrying the backend message `boom`. -/
def failedBodyBoom : TaskStatusResponse := ⟨"failed", none, some "boom"⟩

/-- The status sequence `[pending, pending, failed, failed, ...]` (the
backend keeps reporting `failed` when asked again). -/
def seqPendingPendingFailed : Nat → AttemptResponse :=
  fun i => if i < 2 then .ok pendingBody else .ok failedBodyBoom

/-- Every fetch throws `HTTP 403`. -/
def all403 : Nat → AttemptResponse := fun _ => .fetchError "HTTP 403"

/-- Five in-progress fetches, then every fetch throws `HTTP 403`. -/
def pendingThen403 : Nat → AttemptResponse :=
  fun i => if i < 5 then .ok pendingBody else .fetchError "HTTP 403"

/-- A `completed` status body with no result payload. -/
def completedNoResult : TaskStatusResponse := ⟨"completed", none, none⟩

/-- A manager that tracks no channel. -/
def emptyManager : ManagerState := ⟨fun _ => none, 0, 0⟩

/-- A manager tracking a single channel named `ch` (handle 0). -/
def oneChanManager : ManagerState :=
  ⟨fun n => if n = "ch" then some 0 else none, 1, 1⟩

/-- A 42-character transcription content. -/
def str42 : String := "aaaaaaaaaaaaaaaaaaaaaaaaaaaaaaaaaaaaaaaaaa"

/-! ## Retranscription completion state machine (`page.tsx`)

The tracked React state is the triple `isRetranscribing` /
`hasSeenProcessing` / `retranscribeBaseline`; the completion `useEffect`
(the "监听选中会话的状态变化" effect) reads the selected session on every
refresh of `sessions` and updates it. -/

/-- The `segments` field of a transcription row as the effect sees it:
an array (signature takes its length), a string (signature takes its
character length), or anything else (signature takes 0). -/
inductive SegmentsField
  | arr (n : Nat)
  | str (s : String)
  | other
deriving DecidableEq

/-- The fields of `transcriptions[0]` the signature computation reads
(`{ id?: string; content?: string; segments?: unknown }`). -/
structure TranscriptionRec where
  id : Option String
  content : Option String
  segments : SegmentsField
deriving DecidableEq

/-- A retranscription signature `{ id, contentLength, segmentsLength }`. -/
structure Signature where
  id : Option String
  contentLength : Nat
  segmentsLength : Nat
deriving DecidableEq

/-- `Array.isArray(t?.segments) ? length : typeof === 'string' ? length : 0`. -/
def segLen : SegmentsField → Nat
  | .arr n => n
  | .str s => s.length
  | .other => 0

/-- The signature computed from `selectedSession.transcriptions[0]`
(`t` is `undefined` when the session has no transcriptions; an empty
`content` string is falsy in JavaScript, so it also yields length 0,
which coincides with its length). -/
def computeSignature (t : Option TranscriptionRec) : Signature :=
  { id := t.bind (·.id)
    contentLength :=
      match t with
      | some tr => match tr.content with
        | some c => if c == "" then 0 else c.length
        | none => 0
      | none => 0
    segmentsLength :=
      match t with
      | some tr => segLen tr.segments
      | none => 0 }

/-- The three-field mismatch test of the effect:
`currentSignature.id !== baseline.id || contentLength !== ... || segmentsLength !== ...`. -/
def sigDiffers (a b : Signature) : Bool :=
  a.id != b.id || a.contentLength != b.contentLength || a.segmentsLength != b.segmentsLength

/-- The tracked retranscription state. -/
structure RetransState where
  isRetranscribing : Bool
  hasSeenProcessing : Bool
  retranscribeBaseline : Option Signature
deriving DecidableEq

/-- What a refresh exposes of the selected session: its `status` and
`transcriptions[0]` (if any). -/
structure SessionView where
  status : String
  transcription : Option TranscriptionRec

/-- Result of one run of the completion effect: the updated tracked state
and whether the "转录重新处理完成" success toast fired. -/
structure RefreshResult where
  state : RetransState
  successToast : Bool
deriving DecidableEq

/-- One run of the completion `useEffect` for a refresh in which the
selected session is found.  Every `if` condition reads the state captured
at render time (`s`), while the `set*` calls accumulate into the result —
React state setters do not change the captured values within one run.
Block order as in the source: (1) first sight of `processing` sets
`hasSeenProcessing`; (2) `hasSeenProcessing` and `completed` finishes;
(3) `completed` with a signature differing from the baseline finishes and
clears the baseline; (the transcript-display reload block touches none of
the tracked fields); (5) a status that is neither `completed` nor
`processing` resets all three fields. -/
def processRefresh (s : RetransState) (sess : SessionView) : RefreshResult :=
  let r0 : RefreshResult := ⟨s, false⟩
  let r1 :=
    if sess.status == "processing" && s.isRetranscribing && !s.hasSeenProcessing then
      ⟨{ r0.state with hasSeenProcessing := true }, r0.successToast⟩
    else r0
  let r2 :=
    if s.isRetranscribing && s.hasSeenProcessing && sess.status == "completed" then
      ⟨{ r1.state with isRetranscribing := false, hasSeenProcessing := false }, true⟩
    else r1
  let r3 :=
    if s.isRetranscribing && sess.status == "completed" then
      let cur := computeSignature sess.transcription
      match s.retranscribeBaseline with
      | some b =>
        if sigDiffers cur b then
          ⟨{ r2.state with
              isRetranscribing := false
              hasSeenProcessing := false
              retranscribeBaseline := none }, true⟩
        else r2
      | none => r2
    else r2
  if sess.status != "completed" && sess.status != "processing" then
    ⟨{ isRetranscribing := false, hasSeenProcessing := false,
        retranscribeBaseline := none }, r3.successToast⟩
  else r3

/-! ## Fallback timer (`fallbackCheck` in `handleRetranscribe`)

`fallbackCheck` is scheduled 400 ms after submission and reschedules
itself every 300 ms; `elapsed` is `Date.now() - startTs` at the moment of a
check.  `sessionStatus` is the status of the watched session if it is found
in `sessionsRef.current`, `none` otherwise. -/

/-- What one invocation of `fallbackCheck` decides. -/
inductive FallbackAction
  | exitKeep
  | finishSuccess
  | finishTimeout
  | reschedule
deriving DecidableEq

/-- One invocation of `fallbackCheck`: return untouched when the
retranscribing flag is already down; finish with success when the watched
session is found `completed`; finish with timeout once more than 4000 ms
have elapsed; otherwise reschedule after 300 ms. -/
def fallbackCheck (inflight : Bool) (sessionStatus : Option String)
    (elapsed : Nat) : FallbackAction :=
  if !inflight then .exitKeep
  else if sessionStatus = some "completed" then .finishSuccess
  else if elapsed > 4000 then .finishTimeout
  else .reschedule

/-- The state written by a terminal `fallbackCheck` outcome
(`finishSuccess` and `finishTimeout` both clear the flags and the
baseline); `exitKeep` and `reschedule` leave the state alone. -/
def applyFallback (a : FallbackAction) (s : RetransState) : RetransState :=
  match a with
  | .finishSuccess => ⟨false, false, none⟩
  | .finishTimeout => ⟨false, false, none⟩
  | .exitKeep => s
  | .reschedule => s

/-- The self-rescheduling loop: check k runs at `400 + 300 * k` ms after
submission (first check after 400 ms, then every 300 ms).  `fuel` bounds
how many further checks we unfold; the result is the terminal action if the
loop exits within that many checks. -/
def fallbackRunFrom (inflight : Bool) (sessionStatus : Option String) :
    Nat → Nat → Option FallbackAction
  | 0, _ => none
  | fuel + 1, k =>
    match fallbackCheck inflight sessionStatus (400 + 300 * k) with
    | .reschedule => fallbackRunFrom inflight sessionStatus fuel (k + 1)
    | a => some a

/-- The whole fallback loop from its first check. -/
def fallbackRun (inflight : Bool) (sessionStatus : Option String) (fuel : Nat) :
    Option FallbackAction :=
  fallbackRunFrom inflight sessionStatus fuel 0

/-! ## Theorems -/

/-- A fetch body whose status is `pending` or `processing` makes the try
block sleep the base delay and continue. -/
theorem attemptStep_inProgress (r : TaskStatusResponse)
    (h : r.status = "pending" ∨ r.status = "processing") :
    attemptStep (.ok r) = .sleepContinue := by
  cases r with
  | mk status result error =>
    rcases h with h | h <;> subst h <;> rfl

/-- If every fetch yields an in-progress body, the loop runs to exhaustion,
sleeping 3000 ms after each attempt. -/
theorem pollGo_pending (env : Nat → AttemptResponse) (m : Nat)
    (h : ∀ i, attemptStep (env i) = .sleepContinue) :
    ∀ fuel i tr, pollGo env m i fuel tr =
      ⟨.pollTimeout m, i + fuel, tr ++ List.replicate fuel 3000⟩ := by
  intro fuel
  induction fuel with
  | zero => intro i tr; simp [pollGo]
  | succ n ih =>
    intro i tr
    rw [pollGo, h i, ih (i + 1) (tr ++ [3000])]
    simp [List.replicate_succ]
    omega

/-- With the flag up, `fallbackCheck` never takes the early-return branch. -/
theorem fallbackCheck_inflight_not_exitKeep (stat : Option String) (e : Nat)
    (h : fallbackCheck true stat e = .exitKeep) : False := by
  by_cases h1 : stat = some "completed"
  · simp [fallbackCheck, h1] at h
  · by_cases h2 : e > 4000
    · simp [fallbackCheck, h1, h2] at h
    · simp [fallbackCheck, h1, h2] at h

/-- A fallback loop started with the flag up can only terminate through the
success or the timeout branch. -/
theorem fallbackRunFrom_terminal (stat : Option String) :
    ∀ fuel k a, fallbackRunFrom true stat fuel k = some a →
      a = .finishSuccess ∨ a = .finishTimeout := by
  intro fuel
  induction fuel with
  | zero => intro k a h; simp [fallbackRunFrom] at h
  | succ n ih =>
    intro k a h
    rw [fallbackRunFrom] at h
    cases hc : fallbackCheck true stat (400 + 300 * k) with
    | reschedule => rw [hc] at h; exact ih (k + 1) a h
    | exitKeep => exact absurd hc (fun hc => fallbackCheck_inflight_not_exitKeep stat _ hc)
    | finishSuccess => rw [hc] at h; simp at h; subst h; left; rfl
    | finishTimeout => rw [hc] at h; simp at h; subst h; right; rfl

/-- Once enough fuel remains for the elapsed time to pass 4000 ms, a fallback
loop watching a never-completed session terminates with a timeout. -/
theorem fallbackRunFrom_times_out (stat : Option String)
    (hne : stat ≠ some "completed") :
    ∀ fuel k, 400 + 300 * (k + fuel) > 4000 →
      fallbackRunFrom true stat (fuel + 1) k = some .finishTimeout := by
  intro fuel
  induction fuel with
  | zero =>
    intro k hk
    simp at hk
    rw [fallbackRunFrom]
    simp [fallbackCheck, hne, hk]
  | succ n ih =>
    intro k hk
    rw [fallbackRunFrom]
    by_cases hgt : 400 + 300 * k > 4000
    · simp [fallbackCheck, hne, hgt]
    · have h2 : 400 + 300 * ((k + 1) + n) > 4000 := by omega
      simp [fallbackCheck, hne, hgt]
      exact ih (k + 1) h2

/-- C1 counterexample: with the status sequence [pending, pending, failed,
...] and the default `maxAttempts` of 120, the poll does NOT reject after
exactly 3 attempts — the Failure raised on the third attempt is caught by
the loop's own catch block and retried with the base delay (a sleep IS
performed after the failing attempt), and the backend message only
propagates on attempt 118, when fewer than 3 attempts remain. -/
theorem C1_counterexample_failed_is_retried :
    pollV2TaskStatus seqPendingPendingFailed defaultMaxAttempts =
      ⟨.errorOut "boom", 118, List.replicate 117 3000⟩ ∧
    (pollV2TaskStatus seqPendingPendingFailed defaultMaxAttempts).attemptsMade ≠ 3 := by
  constructor <;> decide

/-- C1 (amended): a `failed` status raises a Failure error carrying the
backend message, but inside the try block, so the loop's catch treats it
like any non-auth error: it propagates immediately (no further attempt, no
sleep) exactly when the attempt index is at least `maxAttempts - 3`;
earlier failing attempts sleep the 3000 ms base delay and are retried.
Consequently `poll` on [pending, pending, failed] rejects with the backend
message after exactly 3 attempts when `maxAttempts = 5`, but not under the
default budget. -/
theorem C1_amended_failed_error_caught (env : Nat → AttemptResponse) (m i fuel : Nat)
    (tr : List Nat) (e : String) (res : Option String)
    (henv : env i = .ok ⟨"failed", res, some e⟩)
    (hne : (e == "") = false)
    (h403 : strContains e "403" = false) :
    (i ≥ m - 3 → pollGo env m i (fuel + 1) tr = ⟨.errorOut e, i + 1, tr⟩) ∧
    (i < m - 3 → pollGo env m i (fuel + 1) tr = pollGo env m (i + 1) fuel (tr ++ [3000])) ∧
    pollV2TaskStatus seqPendingPendingFailed 5 = ⟨.errorOut "boom", 3, [3000, 3000]⟩ := by
  have hstep : attemptStep (.ok ⟨"failed", res, some e⟩) = .thrown e := by
    simp [attemptStep, getTaskStatus, jsOr, hne]
  refine ⟨?_, ?_, by decide⟩
  · intro hge
    rw [pollGo, henv, hstep]
    simp [handlePollError, h403, hge]
  · intro hlt
    have hnge : ¬ i ≥ m - 3 := by omega
    rw [pollGo, henv, hstep]
    simp [handlePollError, h403, hnge]

/-- C1 witness: at attempt index 2 with `maxAttempts = 5` (so `2 ≥ 5 - 3`),
a `failed` fetch makes the loop reject at once with the backend message. -/
theorem C1_amended_witness :
    pollGo seqPendingPendingFailed 5 2 3 [3000, 3000] =
      ⟨.errorOut "boom", 3, [3000, 3000]⟩ :=
  (C1_amended_failed_error_caught seqPendingPendingFailed 5 2 2 [3000, 3000] "boom" none
    rfl rfl (by decide)).1 (by decide)

/-- C2 counterexample: the auth budget is not counted separately from the
overall attempt budget.  With five in-progress attempts followed by `HTTP
403` errors, the poll fails permanently with the auth error on the very
first auth-error attempt (the 6th overall): no 1000 ms fast retry ever
happens (all recorded sleeps are the 3000 ms base delay), contradicting a
dedicated budget of 5 fast retries before permanent auth failure. -/
theorem C2_counterexample_auth_budget_not_separate :
    pollV2TaskStatus pendingThen403 defaultMaxAttempts =
      ⟨.authFailure "认证失败，请重新登录: HTTP 403", 6, List.replicate 5 3000⟩ ∧
    (pollV2TaskStatus pendingThen403 defaultMaxAttempts).sleeps.count 1000 = 0 := by
  constructor <;> decide

/-- C2 (amended): a caught error whose message contains `403` takes the
fast-retry sub-policy, whose cutoff is the OVERALL attempt index, not a
separately counted consecutive-auth budget: at attempt index ≥ 5 the poll
fails permanently with the auth error at once; at index < 5 it sleeps the
short 1000 ms delay and retries.  With 6 consecutive 403 responses from the
first attempt, poll rejects with the auth error after the 6th attempt, the
attempts separated by the short 1000 ms delay. -/
theorem C2_amended_auth_cutoff_by_attempt_index (env : Nat → AttemptResponse)
    (m i fuel : Nat) (tr : List Nat) (msg : String)
    (henv : env i = .fetchError msg)
    (h403 : strContains msg "403" = true) :
    (i ≥ 5 → pollGo env m i (fuel + 1) tr =
      ⟨.authFailure ("认证失败，请重新登录: " ++ msg), i + 1, tr⟩) ∧
    (i < 5 → pollGo env m i (fuel + 1) tr = pollGo env m (i + 1) fuel (tr ++ [1000])) ∧
    pollV2TaskStatus all403 defaultMaxAttempts =
      ⟨.authFailure "认证失败，请重新登录: HTTP 403", 6, List.replicate 5 1000⟩ := by
  refine ⟨?_, ?_, by decide⟩
  · intro hge
    rw [pollGo, henv]
    simp [attemptStep, handlePollError, h403, hge]
  · intro hlt
    have hnge : ¬ i ≥ 5 := by omega
    rw [pollGo, henv]
    simp [attemptStep, handlePollError, h403, hnge]

/-- C2 witness: a 403 caught at attempt index 5 is immediately fatal. -/
theorem C2_amended_witness :
    pollGo all403 120 5 115 (List.replicate 5 1000) =
      ⟨.authFailure ("认证失败，请重新登录: " ++ "HTTP 403"), 6, List.replicate 5 1000⟩ :=
  (C2_amended_auth_cutoff_by_attempt_index all403 120 5 114 (List.replicate 5 1000)
    "HTTP 403" rfl (by decide)).1 (by decide)

/-- C3: for a tracked retranscription with a recorded baseline, a refresh
whose status is `completed` and whose freshly computed signature differs
from the baseline in any of the three fields transitions to
terminal/success — the in-flight flag is cleared, the baseline discarded
and the success toast fired — regardless of whether `processing` was ever
observed; and two signatures are equal iff all three fields match. -/
theorem C3_signature_diff_completes (s : RetransState) (sess : SessionView) (b : Signature)
    (hre : s.isRetranscribing = true)
    (hb : s.retranscribeBaseline = some b)
    (hst : sess.status = "completed")
    (hdiff : sigDiffers (computeSignature sess.transcription) b = true) :
    ((processRefresh s sess).state.isRetranscribing = false ∧
     (processRefresh s sess).state.hasSeenProcessing = false ∧
     (processRefresh s sess).state.retranscribeBaseline = none ∧
     (processRefresh s sess).successToast = true) ∧
    (∀ a c : Signature, sigDiffers a c = false ↔ a = c) := by
  constructor
  · cases hsp : s.hasSeenProcessing <;>
      simp [processRefresh, hre, hb, hst, hdiff, hsp]
  · intro a c
    cases a; cases c
    simp [sigDiffers, Signature.mk.injEq]
    tauto

/-- C3 witness: the spec's own test case — baseline
`{id: t1, contentLength: 0, segmentsLength: 0}` against a `completed`
refresh whose signature is `{id: t1, contentLength: 42, segmentsLength: 3}`,
with `hasSeenProcessing` still false. -/
theorem C3_witness :
    (processRefresh ⟨true, false, some ⟨some "t1", 0, 0⟩⟩
        ⟨"completed", some ⟨some "t1", some str42, .arr 3⟩⟩).state.isRetranscribing = false ∧
    (processRefresh ⟨true, false, some ⟨some "t1", 0, 0⟩⟩
        ⟨"completed", some ⟨some "t1", some str42, .arr 3⟩⟩).state.hasSeenProcessing = false ∧
    (processRefresh ⟨true, false, some ⟨some "t1", 0, 0⟩⟩
        ⟨"completed", some ⟨some "t1", some str42, .arr 3⟩⟩).state.retranscribeBaseline = none ∧
    (processRefresh ⟨true, false, some ⟨some "t1", 0, 0⟩⟩
        ⟨"completed", some ⟨some "t1", some str42, .arr 3⟩⟩).successToast = true :=
  (C3_signature_diff_completes ⟨true, false, some ⟨some "t1", 0, 0⟩⟩
    ⟨"completed", some ⟨some "t1", some str42, .arr 3⟩⟩ ⟨some "t1", 0, 0⟩
    rfl rfl rfl (by decide)).1

/-- C4: a refresh showing `processing` sets the intermediate-state flag
(and keeps the job in flight and the baseline); after that, any refresh
showing `completed` while the flag is up transitions to terminal/success,
clearing the in-flight flag and resetting the intermediate-state flag. -/
theorem C4_processing_then_completed (s : RetransState) (sp sc : SessionView)
    (hre : s.isRetranscribing = true)
    (h1 : sp.status = "processing") (h2 : sc.status = "completed") :
    ((processRefresh s sp).state.hasSeenProcessing = true ∧
     (processRefresh s sp).state.isRetranscribing = true ∧
     (processRefresh s sp).state.retranscribeBaseline = s.retranscribeBaseline) ∧
    (∀ s2 : RetransState, s2.isRetranscribing = true → s2.hasSeenProcessing = true →
      (processRefresh s2 sc).state.isRetranscribing = false ∧
      (processRefresh s2 sc).state.hasSeenProcessing = false ∧
      (processRefresh s2 sc).successToast = true) := by
  constructor
  · cases hsp : s.hasSeenProcessing <;>
      simp [processRefresh, hre, h1, hsp]
  · intro s2 hre2 hsp2
    cases hb : s2.retranscribeBaseline with
    | none => simp [processRefresh, hre2, hsp2, h2, hb]
    | some b =>
      cases hd : sigDiffers (computeSignature sc.transcription) b <;>
        simp [processRefresh, hre2, hsp2, h2, hb, hd]

/-- C4 witness: a `processing` refresh then a `completed` refresh on a
concrete tracked state. -/
theorem C4_witness :
    ((processRefresh ⟨true, false, none⟩ ⟨"processing", none⟩).state.hasSeenProcessing = true ∧
     (processRefresh ⟨true, false, none⟩ ⟨"processing", none⟩).state.isRetranscribing = true ∧
     (processRefresh ⟨true, false, none⟩
        ⟨"processing", none⟩).state.retranscribeBaseline = (none : Option Signature)) ∧
    ((processRefresh ⟨true, true, none⟩ ⟨"completed", none⟩).state.isRetranscribing = false ∧
     (processRefresh ⟨true, true, none⟩ ⟨"completed", none⟩).state.hasSeenProcessing = false ∧
     (processRefresh ⟨true, true, none⟩ ⟨"completed", none⟩).successToast = true) :=
  ⟨(C4_processing_then_completed ⟨true, false, none⟩ ⟨"processing", none⟩ ⟨"completed", none⟩
      rfl rfl rfl).1,
   (C4_processing_then_completed ⟨true, false, none⟩ ⟨"processing", none⟩ ⟨"completed", none⟩
      rfl rfl rfl).2 ⟨true, true, none⟩ rfl rfl⟩

/-- C5: subscribing under a name already in the manager's map returns the
existing handle and changes nothing (in particular no new transport
subscription is opened); subscribing under an absent name opens exactly one
transport subscription and stores the new handle under the name, after
which a repeated subscribe returns that same handle with no further
transport subscription.  The same holds for the transcription-channel
variant. -/
theorem C5_subscribe_idempotent (st : ManagerState) (n : String) :
    (∀ ch t, st.activeChannels n = some ch → createChannel st n t = (some ch, st)) ∧
    (st.activeChannels n = none →
      (createChannel st n false).1 = some st.nextId ∧
      ((createChannel st n false).2).activeChannels n = some st.nextId ∧
      ((createChannel st n false).2).transportCount = st.transportCount + 1 ∧
      (∀ t, createChannel (createChannel st n false).2 n t =
        (some st.nextId, (createChannel st n false).2))) ∧
    (∀ ch t, st.activeChannels n = some ch → createTranscriptionChannel st n t = (some ch, st)) := by
  refine ⟨?_, ?_, ?_⟩
  · intro ch t h
    simp [createChannel, h]
  · intro h
    refine ⟨?_, ?_, ?_, ?_⟩ <;> simp [createChannel, h]
  · intro ch t h
    simp [createTranscriptionChannel, h]

/-- C5 witness: creating `ch` on the empty manager opens one transport
subscription; creating it again returns the same handle and opens none. -/
theorem C5_witness :
    (createChannel emptyManager "ch" false).1 = some emptyManager.nextId ∧
    ((createChannel emptyManager "ch" false).2).activeChannels "ch" = some emptyManager.nextId ∧
    ((createChannel emptyManager "ch" false).2).transportCount = emptyManager.transportCount + 1 ∧
    createChannel (createChannel emptyManager "ch" false).2 "ch" false =
      (some emptyManager.nextId, (createChannel emptyManager "ch" false).2) := by
  have h := (C5_subscribe_idempotent emptyManager "ch").2.1 rfl
  exact ⟨h.1, h.2.1, h.2.2.1, h.2.2.2 false⟩

/-- C6: removing a channel present in the manager's map always leaves
`hasChannel` false afterwards, whether or not the transport unsubscribe
throws. -/
theorem C6_removeChannel_always_removes (st : ManagerState) (n : String) (b : Bool)
    (h : hasChannel st n = true) :
    hasChannel (removeChannel st n b) n = false := by
  unfold hasChannel removeChannel
  cases hc : st.activeChannels n with
  | none => simp [hasChannel, hc] at h
  | some ch => cases b <;> simp

/-- C6 witness: removal of the tracked channel `ch`, with the simulated
teardown throwing and not throwing. -/
theorem C6_witness :
    hasChannel (removeChannel oneChanManager "ch" true) "ch" = false ∧
    hasChannel (removeChannel oneChanManager "ch" false) "ch" = false :=
  ⟨C6_removeChannel_always_removes oneChanManager "ch" true (by decide),
   C6_removeChannel_always_removes oneChanManager "ch" false (by decide)⟩

/-- C7: when every status fetch succeeds with an in-progress body, the loop
performs exactly `maxAttempts` attempts, each followed by the 3000 ms base
delay, and then raises the timeout error naming the attempt count; the
declared default budget is 120 attempts. -/
theorem C7_never_terminal_times_out (env : Nat → AttemptResponse) (m : Nat)
    (h : ∀ i, ∃ r, env i = .ok r ∧ (r.status = "pending" ∨ r.status = "processing")) :
    pollV2TaskStatus env m = ⟨.pollTimeout m, m, List.replicate m 3000⟩ ∧
    defaultMaxAttempts = 120 := by
  constructor
  · have hstep : ∀ i, attemptStep (env i) = .sleepContinue := by
      intro i
      obtain ⟨r, hr, hs⟩ := h i
      rw [hr]
      exact attemptStep_inProgress r hs
    rw [pollV2TaskStatus, pollGo_pending env m hstep m 0 []]
    simp
  · rfl

/-- C7 witness: `poll` with `maxAttempts = 5` against always-`pending`
fetches rejects with the timeout after exactly 5 attempts. -/
theorem C7_witness :
    pollV2TaskStatus (fun _ => .ok pendingBody) 5 =
      ⟨.pollTimeout 5, 5, List.replicate 5 3000⟩ ∧
    defaultMaxAttempts = 120 :=
  C7_never_terminal_times_out (fun _ => .ok pendingBody) 5
    (fun _ => ⟨pendingBody, rfl, Or.inl rfl⟩)

/-- C8: a refresh whose status is neither `processing` nor `completed`
resets the tracked retranscription state to idle — in-flight flag,
intermediate-state flag and baseline all cleared — and never fires the
success toast. -/
theorem C8_unknown_status_resets (s : RetransState) (sess : SessionView)
    (h1 : sess.status ≠ "completed") (h2 : sess.status ≠ "processing") :
    (processRefresh s sess).state = ⟨false, false, none⟩ ∧
    (processRefresh s sess).successToast = false := by
  have e1 : (sess.status == "completed") = false := by
    simp [h1]
  have e2 : (sess.status == "processing") = false := by
    simp [h2]
  constructor <;> simp [processRefresh, e1, e2, h1, h2]

/-- C8 witness: a `failed` refresh on a fully tracked state resets to idle
with no success. -/
theorem C8_witness :
    (processRefresh ⟨true, true, some ⟨none, 0, 0⟩⟩ ⟨"failed", none⟩).state =
      ⟨false, false, none⟩ ∧
    (processRefresh ⟨true, true, some ⟨none, 0, 0⟩⟩ ⟨"failed", none⟩).successToast = false :=
  C8_unknown_status_resets ⟨true, true, some ⟨none, 0, 0⟩⟩ ⟨"failed", none⟩
    (by decide) (by decide)

/-- C9: the caller-side fallback timer forces a terminal transition: while
the job is in flight, a check that finds the session `completed` finishes
with success at once (first check, 400 ms after submission); if the session
never reads `completed`, the loop times out within 14 checks (the first
check at elapsed time over 4000 ms); and every terminal outcome of an
in-flight run leaves the whole tracked state reset, so the in-flight flag
ends up false and the state never hangs. -/
theorem C9_fallback_bounded (stat : Option String) :
    (∀ fuel, fallbackRun true (some "completed") (fuel + 1) = some .finishSuccess) ∧
    (stat ≠ some "completed" → fallbackRun true stat 14 = some .finishTimeout) ∧
    (∀ fuel a, fallbackRun true stat fuel = some a →
      ∀ s : RetransState, applyFallback a s = ⟨false, false, none⟩) := by
  refine ⟨?_, ?_, ?_⟩
  · intro fuel
    rw [fallbackRun, fallbackRunFrom]
    simp [fallbackCheck]
  · intro h
    have := fallbackRunFrom_times_out stat h 13 0 (by norm_num)
    rw [fallbackRun]
    exact this
  · intro fuel a h s
    rcases fallbackRunFrom_terminal stat fuel 0 a h with h1 | h1 <;> subst h1 <;> rfl

/-- C9 witness: a `completed` session ends the fallback loop with success on
its first check; a missing session times out within 14 checks; the timeout
outcome clears the in-flight state. -/
theorem C9_witness :
    fallbackRun true (some "completed") 1 = some .finishSuccess ∧
    fallbackRun true none 14 = some .finishTimeout ∧
    applyFallback .finishTimeout ⟨true, false, none⟩ = ⟨false, false, none⟩ := by
  have h := C9_fallback_bounded none
  exact ⟨(C9_fallback_bounded (some "completed")).1 0, h.2.1 (by decide),
    h.2.2 14 .finishTimeout (h.2.1 (by decide)) ⟨true, false, none⟩⟩

/-- C10: a fetched body whose status is `completed` but whose result payload
is absent or falsy neither returns success nor throws: it falls through
every status branch to the unknown-status warning, and the loop proceeds
directly to the next attempt with no inter-attempt delay. -/
theorem C10_completed_without_result_soft_ignored (r : TaskStatusResponse)
    (env : Nat → AttemptResponse) (m i fuel : Nat) (tr : List Nat)
    (hst : r.status = "completed") (hres : truthy r.result = false)
    (henv : env i = .ok r) :
    attemptStep (.ok r) = .continueNoSleep ∧
    pollGo env m i (fuel + 1) tr = pollGo env m (i + 1) fuel tr := by
  have hstep : attemptStep (.ok r) = .continueNoSleep := by
    cases r with
    | mk status result error =>
      simp only at hst hres
      subst hst
      simp [attemptStep, getTaskStatus, hres]
  refine ⟨hstep, ?_⟩
  rw [pollGo, henv, hstep]

/-- C10 witness: a `completed` body with no result payload is soft-ignored
and the loop moves on without sleeping. -/
theorem C10_witness :
    attemptStep (.ok completedNoResult) = .continueNoSleep ∧
    pollGo (fun _ => .ok completedNoResult) 4 0 4 [] =
      pollGo (fun _ => .ok completedNoResult) 4 1 3 [] :=
  C10_completed_without_result_soft_ignored completedNoResult
    (fun _ => .ok completedNoResult) 4 0 3 [] rfl rfl rfl

end Intrascribe
